import Mathlib

/-!
Shallow embedding of the BLE extended-advertising-report HCI event filter in
`app/bluetooth/common/hci_ext_adv_filter_rssi_uuid/src/sl_bt_hci_ext_adv_filter.c`
(together with the constants of `inc/sl_bt_hci_ext_adv_filter.h` and
`config/sl_bt_hci_ext_adv_filter_config.h`).

Modelling conventions:
* machine bytes are `Nat` with an explicit `% 256` at every `uint8_t` load;
* the zero-initialised stack buffer holding the decoded event is a total read
  function that returns the copied parameter byte below `bytes_copied` and `0`
  above it;
* the C globals (`hci_event_filter`, `advertisment_report_incomplete`,
  `work_filter`) are threaded explicitly as values;
* the external accessors (`sl_btctrl_hci_event_get_opcode` etc.) are modelled
  by fields of `HciEvent` recording whether each call succeeds and what it
  yields;
* the two compile-time UUID capacities (`SL_BT_HCI_FILTER_16BIT_UUID_ARRAY_LEN`
  and `SL_BT_HCI_FILTER_32BIT_UUID_ARRAY_LEN`) are parameters `cap16`/`cap32`,
  since they are deployment-configured constants;
* the C `while` loop of `filter_by_uuid` is a fuel-indexed recursion; `none`
  models an invocation whose loop has not produced a verdict within the given
  fuel.  Since the loop state is a pair of two bytes, `65537` fuel is enough
  for every terminating execution, so `none` at fuel `SCAN_FUEL` means the
  loop diverges.
-/

namespace AdvFilter

/-- Verdict of an HCI event filter stage, mirroring
`enum sl_btctrl_hci_event_filter_status` as used in this file
(`..._EVENT_ACCEPT` / `..._EVENT_DISCARD`). -/
inductive Verdict where
  | accept
  | discard
  deriving DecidableEq, Repr

/-- The `sl_status_t` values produced by `sl_btctrl_hci_event_configure_filtering`:
`SL_STATUS_OK`, `SL_STATUS_NULL_POINTER` and `SL_STATUS_INVALID_PARAMETER`. -/
inductive SlStatus where
  | ok
  | nullPointer
  | invalidParameter
  deriving DecidableEq, Repr

-- Status codes defined in the Bluetooth spec (sl_bt_hci_ext_adv_filter.c:42-43)
def BT_OK : Nat := 0
def BT_ERR_INVALID : Nat := 0x12

def HCI_EVENT_LE_META_EVENT : Nat := 0x3e
def HCI_EVENT_LE_EXTENDED_ADVERTISING_REPORT : Nat := 0x0d

-- AD type codes (sl_bt_hci_ext_adv_filter.c:51-58)
def SL_BT_HCI_AD_TYPE_INCOMPLETE_SERVICE_CLASS_UUID_16_BIT : Nat := 0x02
def SL_BT_HCI_AD_TYPE_COMPLETE_SERVICE_CLASS_UUID_16_BIT : Nat := 0x03
def SL_BT_HCI_AD_TYPE_INCOMPLETE_SERVICE_CLASS_UUID_32_BIT : Nat := 0x04
def SL_BT_HCI_AD_TYPE_COMPLETE_SERVICE_CLASS_UUID_32_BIT : Nat := 0x05
def SL_BT_HCI_AD_TYPE_SERVICE_DATA_UUID_16_BIT : Nat := 0x16
def SL_BT_HCI_AD_TYPE_SERVICE_DATA_UUID_32_BIT : Nat := 0x20

-- Filter configuration bitmask (inc/sl_bt_hci_ext_adv_filter.h)
def SL_BT_HCI_FILTER_CONFIG_RSSI_ENABLE_MASK : Nat := 1 <<< 0
def SL_BT_HCI_FILTER_CONFIG_SERVICE_DATA_UUID_16_BIT_ENABLE_MASK : Nat := 1 <<< 1
def SL_BT_HCI_FILTER_CONFIG_INCOMPLETE_UUID_16_BIT_ENABLE_MASK : Nat := 1 <<< 2
def SL_BT_HCI_FILTER_CONFIG_COMPLETE_UUID_16_BIT_ENABLE_MASK : Nat := 1 <<< 3
def SL_BT_HCI_FILTER_CONFIG_SERVICE_DATA_UUID_32_BIT_ENABLE_MASK : Nat := 1 <<< 4
def SL_BT_HCI_FILTER_CONFIG_INCOMPLETE_UUID_32_BIT_ENABLE_MASK : Nat := 1 <<< 5
def SL_BT_HCI_FILTER_CONFIG_COMPLETE_UUID_32_BIT_ENABLE_MASK : Nat := 1 <<< 6
def SL_BT_HCI_FILTER_CONFIG_MASK : Nat := 0x7f

/-- The local `mask` of `filter_by_uuid` (sl_bt_hci_ext_adv_filter.c:617-618):
`SL_BT_HCI_FILTER_CONFIG_MASK & ~SL_BT_HCI_FILTER_CONFIG_RSSI_ENABLE_MASK`,
the six non-RSSI rule bits; since the RSSI bit lies inside the mask the C
bit-clear equals this XOR. -/
def UUID_RULES_MASK : Nat :=
  SL_BT_HCI_FILTER_CONFIG_MASK ^^^ SL_BT_HCI_FILTER_CONFIG_RSSI_ENABLE_MASK

-- RSSI threshold bounds (inc/sl_bt_hci_ext_adv_filter.h)
def SL_BT_HCI_FILTER_RSSI_MAX : Int := -30
def SL_BT_HCI_FILTER_RSSI_MIN : Int := -120

def SL_BT_HCI_CONFIGURE_FILTERING_OPCODE : Nat := 0xff11

/-- `RSSI_OFFSET = offsetof(hci_le_extended_advertising_report_t,
periodic_advertising_interval) + 2`.  The packed struct lays out
event_code 0, length 1, sub_event_code 2, num_reports 3, event_type 4..5,
address_type 6, address 7..12, primary_phy 13, secondary_phy 14,
advertising_sid 15, tx_power 16, rssi 17, periodic_advertising_interval 18..19,
directed_address_type 20, directed_address 21..26, data_length 27,
data 28..256; so the offset is 18 + 2 = 20. -/
def RSSI_OFFSET : Nat := 20

/-- `struct sli_btctrl_hci_event_filter` together with its two embedded
`struct sli_btctrl_hci_event_uuid` members.  A C (length, pointer) pair is
modelled as the list of the bytes it designates, so `uuid_array_length` is the
list's length; in every state the code can reach, the length field and the
array contents agree, and a `NULL` array with length `0` is the empty list. -/
structure Filter where
  filter_config : Nat
  rssi_threshold : Int
  uuids_16bit : List Nat
  uuids_32bit : List Nat
  deriving DecidableEq, Repr

/-- The filter state installed by `sli_bt_hci_filter_init`:
`filter_config = SL_BT_HCI_FILTER_CONFIG = 1`,
`rssi_threshold = SL_BT_HCI_FILTER_RSSI_THRESHOLD = -80`, and the two UUID
arrays zero-initialised (length 0, pointer NULL). -/
def initFilter : Filter :=
  { filter_config := 1
    rssi_threshold := -80
    uuids_16bit := []
    uuids_32bit := [] }

/-- Read a byte from a C byte array modelled as a list; indices past the end
of the modelled region read as `0`. -/
def listRead (l : List Nat) (i : Nat) : Nat := l.getD i 0

/-- `memcmp(a + ai, b + bi, n) == 0` over byte read functions: the `n` byte
pairs all agree (each load masked to a byte). -/
def memcmpEq (a : Nat → Nat) (ai : Nat) (b : Nat → Nat) (bi : Nat) (n : Nat) : Bool :=
  (List.range n).all fun k => a (ai + k) % 256 == b (bi + k) % 256

/-- The index sequence of the C loop `for (i = 0; i < stop; i += stride)`:
the multiples of `stride` below `stop` (for `stride > 0`). -/
def strideIdxs (stop stride : Nat) : List Nat :=
  (List.range ((stop + stride - 1) / stride)).map (· * stride)

/-- `filter_service_data_uuid` (sl_bt_hci_ext_adv_filter.c:462-473): the AD
payload starts with a UUID of width `uuid_size`; scan the configured UUID
array in strides of `uuid_size` and compare each entry with the leading
`uuid_size` bytes of the payload.  The code is only ever called with
`uuid_size` 2 or 4; the `uuid_size = 0` guard closes the (unreachable)
degenerate loop. -/
def filter_service_data_uuid (uuid_size : Nat) (ad_data : Nat → Nat)
    (uuid_array_length : Nat) (uuid_array : List Nat) : Bool :=
  if uuid_size = 0 then false
  else (strideIdxs uuid_array_length uuid_size).any fun i =>
    memcmpEq ad_data 0 (listRead uuid_array) i uuid_size

/-- `sl_filter_list_of_service_class_uuids` (sl_bt_hci_ext_adv_filter.c:475-490):
double loop over the packed UUIDs of the AD payload (its data field is
`ad_len - 1` bytes; for `ad_len = 0` the C comparison `i < ad_len - 1` is done
in `int`, giving no iterations, which `Nat` truncated subtraction matches) and
over the configured UUID array, comparing `uuid_size` bytes at each pair. -/
def sl_filter_list_of_service_class_uuids (uuid_size ad_len : Nat) (ad_data : Nat → Nat)
    (uuid_array_length : Nat) (uuid_array : List Nat) : Bool :=
  if uuid_size = 0 then false
  else (strideIdxs (ad_len - 1) uuid_size).any fun i =>
    (strideIdxs uuid_array_length uuid_size).any fun j =>
      memcmpEq ad_data i (listRead uuid_array) j uuid_size

/-- `filter_16bit_service` (sl_bt_hci_ext_adv_filter.c:492-503). -/
def filter_16bit_service (filt : Filter) (ad_data : Nat → Nat) : Verdict :=
  if filter_service_data_uuid 2 ad_data filt.uuids_16bit.length filt.uuids_16bit then
    Verdict.accept
  else Verdict.discard

/-- `filter_32bit_service` (sl_bt_hci_ext_adv_filter.c:505-516). -/
def filter_32bit_service (filt : Filter) (ad_data : Nat → Nat) : Verdict :=
  if filter_service_data_uuid 4 ad_data filt.uuids_32bit.length filt.uuids_32bit then
    Verdict.accept
  else Verdict.discard

/-- `filter_16bit_list` (sl_bt_hci_ext_adv_filter.c:518-531). -/
def filter_16bit_list (filt : Filter) (ad_len : Nat) (ad_data : Nat → Nat) : Verdict :=
  if sl_filter_list_of_service_class_uuids 2 ad_len ad_data
      filt.uuids_16bit.length filt.uuids_16bit then
    Verdict.accept
  else Verdict.discard

/-- `filter_32bit_list` (sl_bt_hci_ext_adv_filter.c:540-553). -/
def filter_32bit_list (filt : Filter) (ad_len : Nat) (ad_data : Nat → Nat) : Verdict :=
  if sl_filter_list_of_service_class_uuids 4 ad_len ad_data
      filt.uuids_32bit.length filt.uuids_32bit then
    Verdict.accept
  else Verdict.discard

/-- `filter_ad_structure` (sl_bt_hci_ext_adv_filter.c:555-603): check the six
enabled-rule bits in the source's order; the first enabled rule whose AD-type
flag is set decides via the corresponding matcher; otherwise discard. -/
def filter_ad_structure (filt : Filter)
    (uuid_16bit_service uuid_32bit_service uuid_16bit_incomplete uuid_16bit_complete
     uuid_32bit_incomplete uuid_32bit_complete : Bool)
    (ad_len : Nat) (ad_data : Nat → Nat) : Verdict :=
  if (filt.filter_config &&& SL_BT_HCI_FILTER_CONFIG_SERVICE_DATA_UUID_16_BIT_ENABLE_MASK != 0)
      && uuid_16bit_service then
    filter_16bit_service filt ad_data
  else if (filt.filter_config &&& SL_BT_HCI_FILTER_CONFIG_SERVICE_DATA_UUID_32_BIT_ENABLE_MASK != 0)
      && uuid_32bit_service then
    filter_32bit_service filt ad_data
  else if (filt.filter_config &&& SL_BT_HCI_FILTER_CONFIG_INCOMPLETE_UUID_16_BIT_ENABLE_MASK != 0)
      && uuid_16bit_incomplete then
    filter_16bit_list filt ad_len ad_data
  else if (filt.filter_config &&& SL_BT_HCI_FILTER_CONFIG_COMPLETE_UUID_16_BIT_ENABLE_MASK != 0)
      && uuid_16bit_complete then
    filter_16bit_list filt ad_len ad_data
  else if (filt.filter_config &&& SL_BT_HCI_FILTER_CONFIG_INCOMPLETE_UUID_32_BIT_ENABLE_MASK != 0)
      && uuid_32bit_incomplete then
    filter_32bit_list filt ad_len ad_data
  else if (filt.filter_config &&& SL_BT_HCI_FILTER_CONFIG_COMPLETE_UUID_32_BIT_ENABLE_MASK != 0)
      && uuid_32bit_complete then
    filter_32bit_list filt ad_len ad_data
  else Verdict.discard

/-- One scan step's filtering decision, packaging lines 676-718 of
`filter_by_uuid`: read the AD type byte at `current_idx + 1`, derive the six
type flags and `apply_filter`, and return whether `filter_ad_structure`
accepts this AD structure (`ad_data` points at `current_idx + 2`). -/
def stepAccept (filt : Filter) (data : Nat → Nat) (current_idx ad_len : Nat) : Bool :=
  let ad_type := data (current_idx + 1) % 256
  let ad_data : Nat → Nat := fun k => data (current_idx + 2 + k)
  let uuid_16bit_service := ad_type == SL_BT_HCI_AD_TYPE_SERVICE_DATA_UUID_16_BIT
  let uuid_32bit_service := ad_type == SL_BT_HCI_AD_TYPE_SERVICE_DATA_UUID_32_BIT
  let uuid_16bit_incomplete := ad_type == SL_BT_HCI_AD_TYPE_INCOMPLETE_SERVICE_CLASS_UUID_16_BIT
  let uuid_16bit_complete := ad_type == SL_BT_HCI_AD_TYPE_COMPLETE_SERVICE_CLASS_UUID_16_BIT
  let uuid_32bit_incomplete := ad_type == SL_BT_HCI_AD_TYPE_INCOMPLETE_SERVICE_CLASS_UUID_32_BIT
  let uuid_32bit_complete := ad_type == SL_BT_HCI_AD_TYPE_COMPLETE_SERVICE_CLASS_UUID_32_BIT
  let apply_filter := uuid_16bit_service || uuid_32bit_service || uuid_16bit_incomplete
    || uuid_16bit_complete || uuid_32bit_incomplete || uuid_32bit_complete
  apply_filter
    && (filter_ad_structure filt uuid_16bit_service uuid_32bit_service
          uuid_16bit_incomplete uuid_16bit_complete uuid_32bit_incomplete
          uuid_32bit_complete ad_len ad_data == Verdict.accept)

/-- The AD-structure scan loop of `filter_by_uuid`
(sl_bt_hci_ext_adv_filter.c:674-724), as a fuel-indexed recursion over the
`uint8_t` state `(data_len, current_idx)`.  All state arithmetic is mod 256,
exactly as the C `uint8_t` assignments behave (`data_len - (ad_len + 1)` and
`current_idx + (ad_len + 1)` are computed in `int` and truncated on
assignment).  `none` means the fuel ran out before the loop produced a
verdict. -/
def scanLoop (filt : Filter) (data : Nat → Nat) : Nat → Nat → Nat → Option Verdict
  | 0, _, _ => none
  | fuel + 1, data_len, current_idx =>
    if data_len = 0 then some Verdict.discard
    else
      let ad_len := data current_idx % 256
      if ad_len > data_len then some Verdict.discard
      else if stepAccept filt data current_idx ad_len then some Verdict.accept
      else
        scanLoop filt data fuel ((data_len + 256 - (ad_len + 1)) % 256)
          ((current_idx + (ad_len + 1)) % 256)

/-- The blob indices that the scan loop itself dereferences: the length byte
`data[current_idx]` and the type byte `data[current_idx + 1]` of every step it
executes (both are read before the `ad_len > data_len` bounds check).  Reads
made through `ad_data` inside the matchers are not collected, so this is an
under-approximation of all dereferenced indices. -/
def scanLoopReads (filt : Filter) (data : Nat → Nat) : Nat → Nat → Nat → List Nat
  | 0, _, _ => []
  | fuel + 1, data_len, current_idx =>
    if data_len = 0 then []
    else
      let ad_len := data current_idx % 256
      if ad_len > data_len then [current_idx, current_idx + 1]
      else if stepAccept filt data current_idx ad_len then [current_idx, current_idx + 1]
      else
        current_idx :: (current_idx + 1) ::
          scanLoopReads filt data fuel ((data_len + 256 - (ad_len + 1)) % 256)
            ((current_idx + (ad_len + 1)) % 256)

/-- Fuel bound: the loop state is a pair of bytes (65536 states), so any
terminating execution produces its verdict within 65537 iterations. -/
def SCAN_FUEL : Nat := 65537

/-- The observable interface of one `struct sl_btctrl_hci_event`: whether each
external accessor succeeds and what it yields.  `params i` is the `i`-th byte
that `sl_btctrl_hci_event_get_parameters` writes into the destination buffer
(of which it writes `bytes_copied` bytes). -/
structure HciEvent where
  opcode_ok : Bool
  opcode : Nat
  subevent_opcode : Nat
  length_ok : Bool
  len : Nat
  params_ok : Bool
  bytes_copied : Nat
  params : Nat → Nat

/-- Byte `i` of the zero-initialised stack buffer after
`sl_btctrl_hci_event_get_parameters` has written `bytes_copied` bytes. -/
def bufByte (ev : HciEvent) (i : Nat) : Nat :=
  if i < ev.bytes_copied then ev.params i % 256 else 0

/-- Decode a byte as a C `int8_t` (two's complement). -/
def int8OfByte (b : Nat) : Int :=
  if b % 256 < 128 then ((b % 256 : Nat) : Int) else ((b % 256 : Nat) : Int) - 256

/-- `ext_adv_report->event_type`: little-endian `uint16_t` at offset 4. -/
def eventTypeOf (ev : HciEvent) : Nat := bufByte ev 4 + 256 * bufByte ev 5

/-- `ext_adv_report->rssi`: `int8_t` at offset 17. -/
def rssiOf (ev : HciEvent) : Int := int8OfByte (bufByte ev 17)

/-- `ext_adv_report->data_length`: byte at offset 27. -/
def dataLengthOf (ev : HciEvent) : Nat := bufByte ev 27

/-- `ext_adv_report->data`: the AD-data blob starting at offset 28. -/
def dataRead (ev : HciEvent) (i : Nat) : Nat := bufByte ev (28 + i)

/-- `filter_by_rssi` (sl_bt_hci_ext_adv_filter.c:407-460).  In this stage
`sl_btctrl_hci_event_get_parameters` is called with the full buffer capacity,
and only `bytes_copied < RSSI_OFFSET` is rejected afterwards. -/
def filter_by_rssi (filt : Filter) (ev : HciEvent) : Verdict :=
  if filt.filter_config &&& SL_BT_HCI_FILTER_CONFIG_RSSI_ENABLE_MASK = 0 then
    Verdict.accept
  else if ev.opcode_ok = false then Verdict.discard
  else if ¬(ev.opcode = HCI_EVENT_LE_META_EVENT
      ∧ ev.subevent_opcode = HCI_EVENT_LE_EXTENDED_ADVERTISING_REPORT) then
    Verdict.accept
  else if ev.length_ok = false then Verdict.discard
  else if ev.len < RSSI_OFFSET then Verdict.discard
  else if ev.params_ok = false then Verdict.discard
  else if ev.bytes_copied < RSSI_OFFSET then Verdict.discard
  else if rssiOf ev < filt.rssi_threshold then Verdict.discard
  else Verdict.accept

/-- `filter_by_uuid` (sl_bt_hci_ext_adv_filter.c:605-725).  The global
`advertisment_report_incomplete` flag is threaded explicitly: the result pairs
the verdict (`none` = the scan loop ran out of fuel, i.e. diverged) with the
flag's new value.  `mask = SL_BT_HCI_FILTER_CONFIG_MASK &
~SL_BT_HCI_FILTER_CONFIG_RSSI_ENABLE_MASK`; since the RSSI bit lies inside the
mask, the C bit-clear equals the XOR used here. -/
def filter_by_uuid (filt : Filter) (advertisment_report_incomplete : Bool)
    (ev : HciEvent) : Option Verdict × Bool :=
  if filt.filter_config &&& UUID_RULES_MASK = 0 then
    (some Verdict.accept, advertisment_report_incomplete)
  else if ev.opcode_ok = false then (some Verdict.discard, advertisment_report_incomplete)
  else if ¬(ev.opcode = HCI_EVENT_LE_META_EVENT
      ∧ ev.subevent_opcode = HCI_EVENT_LE_EXTENDED_ADVERTISING_REPORT) then
    (some Verdict.accept, advertisment_report_incomplete)
  else if ev.length_ok = false then (some Verdict.discard, advertisment_report_incomplete)
  else if ev.params_ok = false then (some Verdict.discard, advertisment_report_incomplete)
  else if ev.bytes_copied ≠ ev.len + 2 then (some Verdict.discard, advertisment_report_incomplete)
  else if advertisment_report_incomplete = false ∧ Nat.testBit (eventTypeOf ev) 5 then
    (some Verdict.accept, true)
  else if advertisment_report_incomplete = true ∧ ¬Nat.testBit (eventTypeOf ev) 5 then
    (some Verdict.accept, false)
  else
    (scanLoop filt (dataRead ev) SCAN_FUEL (dataLengthOf ev) 0,
      advertisment_report_incomplete)

/-- Little-endian `uint32_t` from four bytes. -/
def le32 (b0 b1 b2 b3 : Nat) : Nat :=
  b0 % 256 + 256 * (b1 % 256) + 65536 * (b2 % 256) + 16777216 * (b3 % 256)

/-- `sl_btctrl_hci_event_configure_filtering` (sl_bt_hci_ext_adv_filter.c:285-334).
The caller passes a pointer to a `struct sli_work_filter`; the model takes its
raw bytes (`none` = NULL pointer): bytes 0..3 are `config` (little-endian
`uint32_t`), byte 4 is `rssi_threshold` (`int8_t`), bytes 5.. are `data`.
`data[0]` is the 16-bit UUID array byte length, `data[uuid16_list_length + 1]`
the 32-bit one; on success the UUID list views are the corresponding byte
ranges of `data` and the previous filter is wholesale replaced.  `cap16` and
`cap32` are the two compile-time `..._UUID_ARRAY_LEN` capacities. -/
def sl_btctrl_hci_event_configure_filtering (cap16 cap32 : Nat)
    (filter : Option (List Nat)) (current : Filter) : SlStatus × Filter :=
  match filter with
  | none => (SlStatus.nullPointer, current)
  | some work =>
    let config := le32 (listRead work 0) (listRead work 1) (listRead work 2) (listRead work 3)
    if config &&& (0xffffffff ^^^ SL_BT_HCI_FILTER_CONFIG_MASK) ≠ 0 then
      (SlStatus.invalidParameter, current)
    else
      let rssi := int8OfByte (listRead work 4)
      if config &&& SL_BT_HCI_FILTER_CONFIG_RSSI_ENABLE_MASK ≠ 0
          ∧ (rssi < SL_BT_HCI_FILTER_RSSI_MIN ∨ rssi > SL_BT_HCI_FILTER_RSSI_MAX) then
        (SlStatus.invalidParameter, current)
      else
        let data := work.drop 5
        let uuid16_list_length := listRead data 0 % 256
        if uuid16_list_length > cap16 then (SlStatus.invalidParameter, current)
        else
          let uuid32_list_length := listRead data (uuid16_list_length + 1) % 256
          if uuid32_list_length > cap32 then (SlStatus.invalidParameter, current)
          else
            (SlStatus.ok,
              { filter_config := config
                rssi_threshold := rssi
                uuids_16bit := (data.drop 1).take uuid16_list_length
                uuids_32bit := (data.drop (uuid16_list_length + 2)).take uuid32_list_length })

/-- `WORK_MEMORY` (sl_bt_hci_ext_adv_filter.c:253-255). -/
def WORK_MEMORY (cap16 cap32 : Nat) : Nat := cap16 + cap32 + 2

/-- `hci_configure_filter_command` (sl_bt_hci_ext_adv_filter.c:361-405).
`opcode_ok` models whether `sl_btctrl_hci_message_get_opcode` succeeds (the
status of `sl_btctrl_hci_message_get_length` is never consulted by the code);
`length` is the command parameter length, `msg_params` the message's parameter
bytes, and `old_work` the previous contents of the static `work_filter` buffer
(`5 + WORK_MEMORY` bytes), which `sl_btctrl_hci_message_get_parameters`
overwrites only up to `length`.  `none` models `return false` (command not
handled); otherwise the result carries the response status byte, the new work
buffer and the new filter. -/
def hci_configure_filter_command (cap16 cap32 : Nat) (opcode_ok : Bool) (opcode : Nat)
    (length : Nat) (msg_params : List Nat) (old_work : List Nat) (current : Filter) :
    Option (Nat × List Nat × Filter) :=
  if opcode_ok = false then none
  else if opcode ≠ SL_BT_HCI_CONFIGURE_FILTERING_OPCODE then none
  else
    let min_length := 5
    let max_length := 5 + WORK_MEMORY cap16 cap32
    if length < min_length ∨ length > max_length then
      some (BT_ERR_INVALID, old_work, current)
    else
      let new_work := msg_params.take length ++ old_work.drop length
      let res := sl_btctrl_hci_event_configure_filtering cap16 cap32 (some new_work) current
      some ((if res.1 = SlStatus.ok then BT_OK else BT_ERR_INVALID), new_work, res.2)

/-- Well-formedness parse of an AD-data blob, fuel-indexed (structural so that
concrete instances evaluate): starting at `idx` with `dl` remaining bytes,
repeatedly read a length byte `ad_len` and require `1 ≤ ad_len` and
`ad_len + 1 ≤ dl`, collecting the `(offset, ad_len)` pairs, until exactly `dl = 0`.
This is the spec-side description of a blob that parses cleanly into AD
structures; `parseStructs` instantiates the fuel with `dl`, which always
suffices since every step consumes at least 2 bytes. -/
def parseStructsF (data : Nat → Nat) : Nat → Nat → Nat → Option (List (Nat × Nat))
  | 0, _, dl => if dl = 0 then some [] else none
  | fuel + 1, idx, dl =>
    if dl = 0 then some []
    else
      let ad_len := data idx % 256
      if 1 ≤ ad_len ∧ ad_len + 1 ≤ dl then
        match parseStructsF data fuel (idx + (ad_len + 1)) (dl - (ad_len + 1)) with
        | some rest => some ((idx, ad_len) :: rest)
        | none => none
      else none

/-- The `(offset, ad_len)` list of a well-formed AD blob of `dl` bytes starting
at offset `idx` (`none` when malformed). -/
def parseStructs (data : Nat → Nat) (idx dl : Nat) : Option (List (Nat × Nat)) :=
  parseStructsF data dl idx dl

/-- A decoded Extended Advertising Report: every accessor of the UUID stage
succeeds, the opcodes match, and the copy is complete. -/
def ReachesReport (ev : HciEvent) : Prop :=
  ev.opcode_ok = true
  ∧ ev.opcode = HCI_EVENT_LE_META_EVENT
  ∧ ev.subevent_opcode = HCI_EVENT_LE_EXTENDED_ADVERTISING_REPORT
  ∧ ev.length_ok = true
  ∧ ev.params_ok = true
  ∧ ev.bytes_copied = ev.len + 2

/-- The UUID stage reaches the AD-structure scan: the report is decoded and
the fragment-tracker bypass does not fire (the tracker flag equals the
report's incomplete bit). -/
def ReachesScan (advertisment_report_incomplete : Bool) (ev : HciEvent) : Prop :=
  ReachesReport ev
  ∧ advertisment_report_incomplete = Nat.testBit (eventTypeOf ev) 5

/-- AD types whose matcher consults the configured 16-bit UUID list. -/
def adType16 (t : Nat) : Prop :=
  t = SL_BT_HCI_AD_TYPE_SERVICE_DATA_UUID_16_BIT
  ∨ t = SL_BT_HCI_AD_TYPE_INCOMPLETE_SERVICE_CLASS_UUID_16_BIT
  ∨ t = SL_BT_HCI_AD_TYPE_COMPLETE_SERVICE_CLASS_UUID_16_BIT

/-- AD types whose matcher consults the configured 32-bit UUID list. -/
def adType32 (t : Nat) : Prop :=
  t = SL_BT_HCI_AD_TYPE_SERVICE_DATA_UUID_32_BIT
  ∨ t = SL_BT_HCI_AD_TYPE_INCOMPLETE_SERVICE_CLASS_UUID_32_BIT
  ∨ t = SL_BT_HCI_AD_TYPE_COMPLETE_SERVICE_CLASS_UUID_32_BIT

instance (t : Nat) : Decidable (adType16 t) := by
  unfold adType16
  infer_instance

instance (t : Nat) : Decidable (adType32 t) := by
  unfold adType32
  infer_instance

instance (ev : HciEvent) : Decidable (ReachesReport ev) := by
  unfold ReachesReport
  infer_instance

instance (inc : Bool) (ev : HciEvent) : Decidable (ReachesScan inc ev) := by
  unfold ReachesScan
  infer_instance

/-- The spec's description of the configuration command layout (spec sections
4.1 and 6): byte 5 is `uuid16_count`, a count of 2-byte UUIDs, so the 16-bit
list occupies `2 * count` bytes starting at offset 6.  This definition follows
the spec's words, not the source, and exists only to be compared with the
source-derived validator. -/
def specUuid16Bytes (work : List Nat) : List Nat :=
  (work.drop 6).take (2 * (listRead work 5 % 256))

/-- The spec's description of where `uuid32_count` lives: byte offset
`6 + 2 * uuid16_count` (spec section 6).  Follows the spec's words, for
comparison with the source-derived validator. -/
def specUuid32Count (work : List Nat) : Nat :=
  listRead work (6 + 2 * (listRead work 5 % 256)) % 256

-- Concrete instances used by witnesses and counterexamples ------------------

/-- The 28 header bytes of an Extended Advertising Report buffer: event-type
low byte at offset 4, RSSI byte at offset 17, data_length at offset 27, all
other fields zero. -/
def hdr (etLow rssiByte dataLen : Nat) : List Nat :=
  [0, 0, 0, 0] ++ [etLow, 0] ++ List.replicate 11 0 ++ [rssiByte]
    ++ List.replicate 9 0 ++ [dataLen]

/-- An Extended Advertising Report event whose raw buffer bytes are `bytes`:
all accessors succeed and the parameter copy is complete. -/
def mkReport (bytes : List Nat) : HciEvent :=
  { opcode_ok := true
    opcode := HCI_EVENT_LE_META_EVENT
    subevent_opcode := HCI_EVENT_LE_EXTENDED_ADVERTISING_REPORT
    length_ok := true
    len := bytes.length - 2
    params_ok := true
    bytes_copied := bytes.length
    params := fun i => listRead bytes i }

/-- An all-zero AD blob read function. -/
def zeroData : Nat → Nat := fun _ => 0

/-- RSSI rule enabled, threshold -80 dBm. -/
def filtRssi : Filter :=
  { filter_config := 1, rssi_threshold := -80, uuids_16bit := [], uuids_32bit := [] }

/-- 16-bit service-data rule enabled, 16-bit list holding 0x180F (bytes 0F 18). -/
def filtSvc16 : Filter :=
  { filter_config := 2, rssi_threshold := -80, uuids_16bit := [0x0F, 0x18], uuids_32bit := [] }

/-- 16-bit service-data rule enabled, both UUID lists empty. -/
def filtFrag : Filter :=
  { filter_config := 2, rssi_threshold := -80, uuids_16bit := [], uuids_32bit := [] }

/-- Complete-list-of-16-bit-UUIDs rule enabled, both UUID lists empty. -/
def filtList16 : Filter :=
  { filter_config := 8, rssi_threshold := -80, uuids_16bit := [], uuids_32bit := [] }

/-- Report whose RSSI byte 176 decodes to -80 dBm. -/
def evRssiEq : HciEvent := mkReport (hdr 0 176 0)

/-- Report whose RSSI byte 175 decodes to -81 dBm. -/
def evRssiBelow : HciEvent := mkReport (hdr 0 175 0)

/-- Report with blob `[3, 0x16, 0x0F, 0x18]`: one service-data-16 AD structure
advertising UUID 0x180F. -/
def evSvc : HciEvent := mkReport (hdr 0 0 4 ++ [3, 0x16, 0x0F, 0x18])

/-- Report with event-type bit 5 (incomplete) set and an empty AD blob. -/
def evFrag : HciEvent := mkReport (hdr 0x20 0 0)

/-- Report with blob `[3, 0x03, 0xAA, 0xBB]`: one complete-list-16 AD
structure. -/
def evList : HciEvent := mkReport (hdr 0 0 4 ++ [3, 0x03, 0xAA, 0xBB])

/-- Report declaring `data_length = 2` whose first AD length byte is 3: the
declared AD length exceeds the remaining blob bytes. -/
def evTrunc : HciEvent := mkReport (hdr 0 0 2 ++ [3, 0])

/-- Report declaring `data_length = 255` with `data[0] = 255`: at the first
scan step `ad_len = data_len = 255`, the bounds check `ad_len > data_len`
passes, and the uint8 updates `data_len -= 256`, `current_idx += 256` leave
the loop state unchanged forever. -/
def ev255 : HciEvent := mkReport (hdr 0 0 255 ++ [255])

/-- Configuration work-buffer bytes declaring a 16-bit field value 2 at
offset 5: the validator reads the 32-bit length at offset 6 + 2 = 8 (value 0),
while the spec's layout would read it at offset 6 + 2*2 = 10 (value 9). -/
def cexWork : List Nat := [0, 0, 0, 0, 0, 2, 0x11, 0x22, 0x00, 0x44, 9]

end AdvFilter

namespace AdvFilter

-- Helper lemmas --------------------------------------------------------------

theorem listRead_drop (l : List Nat) (n i : Nat) :
    listRead (l.drop n) i = listRead l (n + i) := by
  simp [listRead, List.getD_eq_getElem?_getD, List.getElem?_drop]

theorem bufByte_lt (ev : HciEvent) (i : Nat) : bufByte ev i < 256 := by
  unfold bufByte
  split
  · exact Nat.mod_lt _ (by norm_num)
  · norm_num

theorem dataLengthOf_le (ev : HciEvent) : dataLengthOf ev ≤ 255 := by
  have := bufByte_lt ev 27
  unfold dataLengthOf
  omega

/-- Under the reach-scan hypotheses, `filter_by_uuid` reduces to the scan loop
on the report's AD blob, with the tracker flag unchanged. -/
theorem filter_by_uuid_reach (filt : Filter) (inc : Bool) (ev : HciEvent)
    (hen : filt.filter_config &&& UUID_RULES_MASK ≠ 0)
    (hr : ReachesScan inc ev) :
    filter_by_uuid filt inc ev =
      (scanLoop filt (dataRead ev) SCAN_FUEL (dataLengthOf ev) 0, inc) := by
  obtain ⟨⟨h1, h2, h3, h4, h5, h6⟩, hinc⟩ := hr
  subst hinc
  unfold filter_by_uuid
  cases ht : Nat.testBit (eventTypeOf ev) 5 <;>
    simp [hen, h1, h2, h3, h4, h5, h6, ht]

end AdvFilter

namespace AdvFilter

/-- C7: for every decoded Extended Advertising Report long enough to contain
the RSSI field, when the RSSI rule is enabled the RSSI stage returns accept if
and only if the report's RSSI is greater than or equal to the configured
`rssi_threshold`; in particular equality accepts and one dBm below discards. -/
theorem rssi_stage_threshold (filt : Filter) (ev : HciEvent)
    (hen : filt.filter_config &&& SL_BT_HCI_FILTER_CONFIG_RSSI_ENABLE_MASK ≠ 0)
    (hop : ev.opcode_ok = true)
    (ho : ev.opcode = HCI_EVENT_LE_META_EVENT)
    (hs : ev.subevent_opcode = HCI_EVENT_LE_EXTENDED_ADVERTISING_REPORT)
    (hl : ev.length_ok = true)
    (hlen : RSSI_OFFSET ≤ ev.len)
    (hp : ev.params_ok = true)
    (hbc : RSSI_OFFSET ≤ ev.bytes_copied) :
    filter_by_rssi filt ev = Verdict.accept ↔ filt.rssi_threshold ≤ rssiOf ev := by
  unfold filter_by_rssi
  simp only [hen, hop, ho, hs, hl, hp, Nat.not_lt.mpr hlen, Nat.not_lt.mpr hbc,
    if_neg, if_false, and_self, not_true_eq_false, Bool.true_eq_false, if_true]
  by_cases hr : rssiOf ev < filt.rssi_threshold
  · rw [if_pos hr]
    constructor
    · intro h
      exact absurd h (by decide)
    · intro h
      exact absurd h (by omega)
  · rw [if_neg hr]
    constructor
    · intro _
      omega
    · intro _
      rfl

/-- C7 witness: with threshold -80 dBm, a report whose RSSI is exactly -80 is
accepted and one whose RSSI is -81 is discarded. -/
theorem rssi_stage_threshold_witness :
    filter_by_rssi filtRssi evRssiEq = Verdict.accept
    ∧ filter_by_rssi filtRssi evRssiBelow = Verdict.discard := by
  constructor
  · exact (rssi_stage_threshold filtRssi evRssiEq (by decide) rfl rfl rfl rfl
      (by decide) rfl (by decide)).mpr (by decide)
  · have h := rssi_stage_threshold filtRssi evRssiBelow (by decide) rfl rfl rfl rfl
      (by decide) rfl (by decide)
    cases hv : filter_by_rssi filtRssi evRssiBelow
    · exact absurd (h.mp hv) (by decide)
    · rfl

/-- C8: whenever the configuration validator fails (null buffer, undefined
bitmask bits, RSSI threshold out of range with the RSSI rule enabled, or a
UUID count over capacity), the active filter configuration is returned exactly
as it was: no error path modifies any field. -/
theorem config_no_side_effect_on_failure (cap16 cap32 : Nat)
    (w : Option (List Nat)) (current : Filter)
    (hfail : (sl_btctrl_hci_event_configure_filtering cap16 cap32 w current).1 ≠ SlStatus.ok) :
    (sl_btctrl_hci_event_configure_filtering cap16 cap32 w current).2 = current := by
  cases w with
  | none => rfl
  | some work =>
    simp only [sl_btctrl_hci_event_configure_filtering] at hfail ⊢
    split_ifs at hfail ⊢ <;> first | rfl | exact absurd rfl hfail

/-- C8 witness: a NULL configuration buffer fails and leaves the initial
filter configuration untouched. -/
theorem config_no_side_effect_on_failure_witness :
    (sl_btctrl_hci_event_configure_filtering 4 4 none initFilter).2 = initFilter :=
  config_no_side_effect_on_failure 4 4 none initFilter (by decide)

end AdvFilter

namespace AdvFilter

/-- C4: the fragment tracker is a two-state machine: a decoded Extended
Advertising Report with event-type bit 5 set while the tracker is Idle
(`false`) moves it to InChain (`true`) with an unconditional accept; a report
with the bit clear while InChain moves it back to Idle with an unconditional
accept; and no invocation of the UUID stage changes the tracker in any other
way. -/
theorem fragment_tracker_machine :
    (∀ (filt : Filter) (ev : HciEvent),
      filt.filter_config &&& UUID_RULES_MASK ≠ 0 →
      ReachesReport ev →
      Nat.testBit (eventTypeOf ev) 5 = true →
      filter_by_uuid filt false ev = (some Verdict.accept, true))
    ∧ (∀ (filt : Filter) (ev : HciEvent),
      filt.filter_config &&& UUID_RULES_MASK ≠ 0 →
      ReachesReport ev →
      Nat.testBit (eventTypeOf ev) 5 = false →
      filter_by_uuid filt true ev = (some Verdict.accept, false))
    ∧ (∀ (filt : Filter) (inc : Bool) (ev : HciEvent),
      (filter_by_uuid filt inc ev).2 ≠ inc →
      (inc = false ∧ Nat.testBit (eventTypeOf ev) 5 = true
        ∧ filter_by_uuid filt inc ev = (some Verdict.accept, true))
      ∨ (inc = true ∧ Nat.testBit (eventTypeOf ev) 5 = false
        ∧ filter_by_uuid filt inc ev = (some Verdict.accept, false))) := by
  refine ⟨?_, ?_, ?_⟩
  · intro filt ev hen hr hb
    obtain ⟨h1, h2, h3, h4, h5, h6⟩ := hr
    unfold filter_by_uuid
    simp [hen, h1, h2, h3, h4, h5, h6, hb]
  · intro filt ev hen hr hb
    obtain ⟨h1, h2, h3, h4, h5, h6⟩ := hr
    unfold filter_by_uuid
    simp [hen, h1, h2, h3, h4, h5, h6, hb]
  · intro filt inc ev h
    unfold filter_by_uuid at h ⊢
    split_ifs at h ⊢ <;> simp_all

/-- C4 witness: with a UUID rule enabled, the incomplete-flagged report
`evFrag` moves the tracker Idle to InChain with accept, and the same report
with the flag viewed from InChain state via a complete-flagged report
(`evSvc`, bit 5 clear) moves it back to Idle with accept. -/
theorem fragment_tracker_machine_witness :
    filter_by_uuid filtFrag false evFrag = (some Verdict.accept, true)
    ∧ filter_by_uuid filtFrag true evSvc = (some Verdict.accept, false) := by
  constructor
  · exact fragment_tracker_machine.1 filtFrag evFrag (by decide) (by decide) (by decide)
  · exact fragment_tracker_machine.2.1 filtFrag evSvc (by decide) (by decide) (by decide)

end AdvFilter

namespace AdvFilter

/-- The scan loop agrees with the well-formedness parse: on a blob that parses
into AD structures, the loop (with enough fuel) returns accept exactly when
some parsed structure's matcher accepts, and discard otherwise.  The bound
`idx + dl ≤ 255` (true of the initial state `idx = 0`, `dl ≤ 255` and
preserved by every step) keeps the uint8 state updates free of wraparound. -/
theorem scanLoop_of_parse (filt : Filter) (data : Nat → Nat) :
    ∀ (n idx dl : Nat) (structs : List (Nat × Nat)),
      parseStructsF data n idx dl = some structs →
      idx + dl ≤ 255 →
      ∀ fuel, dl < fuel →
      scanLoop filt data fuel dl idx =
        some (if structs.any (fun s => stepAccept filt data s.1 s.2) then Verdict.accept
          else Verdict.discard) := by
  intro n
  induction n with
  | zero =>
    intro idx dl structs hp hb fuel hf
    rw [parseStructsF] at hp
    by_cases h0 : dl = 0
    · simp only [if_pos h0, Option.some.injEq] at hp
      subst h0
      obtain ⟨f, rfl⟩ : ∃ f, fuel = f + 1 := ⟨fuel - 1, by omega⟩
      rw [scanLoop]
      simp [← hp]
    · simp [if_neg h0] at hp
  | succ n ih =>
    intro idx dl structs hp hb fuel hf
    rw [parseStructsF] at hp
    by_cases h0 : dl = 0
    · simp only [if_pos h0, Option.some.injEq] at hp
      subst h0
      obtain ⟨f, rfl⟩ : ∃ f, fuel = f + 1 := ⟨fuel - 1, by omega⟩
      rw [scanLoop]
      simp [← hp]
    · rw [if_neg h0] at hp
      simp only at hp
      by_cases h2 : 1 ≤ data idx % 256 ∧ data idx % 256 + 1 ≤ dl
      · rw [if_pos h2] at hp
        cases hrest : parseStructsF data n (idx + (data idx % 256 + 1)) (dl - (data idx % 256 + 1)) with
        | none => rw [hrest] at hp; exact absurd hp (by simp)
        | some rest =>
          rw [hrest] at hp
          simp only [Option.some.injEq] at hp
          subst hp
          obtain ⟨f, rfl⟩ : ∃ f, fuel = f + 1 := ⟨fuel - 1, by omega⟩
          rw [scanLoop]
          rw [if_neg h0]
          simp only
          rw [if_neg (show ¬ data idx % 256 > dl by omega)]
          by_cases hsa : stepAccept filt data idx (data idx % 256)
          · rw [if_pos hsa]
            simp [hsa]
          · rw [if_neg hsa]
            rw [show (dl + 256 - (data idx % 256 + 1)) % 256 = dl - (data idx % 256 + 1) by omega]
            rw [show (idx + (data idx % 256 + 1)) % 256 = idx + (data idx % 256 + 1) by omega]
            rw [ih _ _ _ hrest (by omega) f (by omega)]
            have hsa2 : stepAccept filt data idx (data idx % 256) = false := by
              simpa using hsa
            simp only [List.any_cons, hsa2, Bool.false_or]
      · rw [if_neg h2] at hp
        exact absurd hp (by simp)

/-- Under the reach-scan hypotheses and a well-formed blob, the UUID stage
returns the union-of-matchers verdict with the tracker unchanged. -/
theorem filter_by_uuid_scan (filt : Filter) (inc : Bool) (ev : HciEvent)
    (structs : List (Nat × Nat))
    (hen : filt.filter_config &&& UUID_RULES_MASK ≠ 0)
    (hr : ReachesScan inc ev)
    (hp : parseStructs (dataRead ev) 0 (dataLengthOf ev) = some structs) :
    filter_by_uuid filt inc ev =
      (some (if structs.any (fun s => stepAccept filt (dataRead ev) s.1 s.2) then Verdict.accept
        else Verdict.discard), inc) := by
  rw [filter_by_uuid_reach filt inc ev hen hr]
  rw [scanLoop_of_parse filt (dataRead ev) (dataLengthOf ev) 0 (dataLengthOf ev) structs hp
    (by simpa using dataLengthOf_le ev) SCAN_FUEL
    (by have := dataLengthOf_le ev; unfold SCAN_FUEL; omega)]

/-- C5: the UUID stage is a union (logical OR) of the enabled UUID rules: if
none of the six non-RSSI rule bits are enabled it accepts immediately;
otherwise, scanning the (well-formed) AD structures in order, it accepts
exactly when some AD structure falls under an enabled rule whose matcher
matches, and discards when none does. -/
theorem uuid_stage_union :
    (∀ (filt : Filter) (inc : Bool) (ev : HciEvent),
      filt.filter_config &&& UUID_RULES_MASK = 0 →
      filter_by_uuid filt inc ev = (some Verdict.accept, inc))
    ∧ (∀ (filt : Filter) (inc : Bool) (ev : HciEvent) (structs : List (Nat × Nat)),
      filt.filter_config &&& UUID_RULES_MASK ≠ 0 →
      ReachesScan inc ev →
      parseStructs (dataRead ev) 0 (dataLengthOf ev) = some structs →
      filter_by_uuid filt inc ev =
        (some (if structs.any (fun s => stepAccept filt (dataRead ev) s.1 s.2) then Verdict.accept
          else Verdict.discard), inc)) := by
  constructor
  · intro filt inc ev hz
    unfold filter_by_uuid
    rw [if_pos hz]
  · intro filt inc ev structs hen hr hp
    exact filter_by_uuid_scan filt inc ev structs hen hr hp

/-- C5 witness: with the 16-bit service-data rule enabled and configured list
0x180F, the report whose single AD structure is service-data-16 with leading
bytes 0F 18 is accepted; the well-formed parse of its blob is one structure at
offset 0 with ad_len 3. -/
theorem uuid_stage_union_witness :
    filter_by_uuid filtSvc16 false evSvc = (some Verdict.accept, false) := by
  have h := uuid_stage_union.2 filtSvc16 false evSvc [(0, 3)] (by decide)
    ⟨(by decide), (by decide)⟩ (by decide)
  rw [show (List.any [(0, 3)] fun s => stepAccept filtSvc16 (dataRead evSvc) s.1 s.2) = true
    from by decide] at h
  simpa using h

end AdvFilter

namespace AdvFilter

theorem filter_service_data_uuid_nil (uuid_size : Nat) (ad_data : Nat → Nat)
    (uuid_array : List Nat) :
    filter_service_data_uuid uuid_size ad_data 0 uuid_array = false := by
  unfold filter_service_data_uuid
  by_cases h : uuid_size = 0
  · simp [h]
  · rw [if_neg h]
    have : (uuid_size - 1) / uuid_size = 0 := Nat.div_eq_of_lt (by omega)
    simp [strideIdxs, this]

theorem sl_filter_list_nil (uuid_size ad_len : Nat) (ad_data : Nat → Nat)
    (uuid_array : List Nat) :
    sl_filter_list_of_service_class_uuids uuid_size ad_len ad_data 0 uuid_array = false := by
  unfold sl_filter_list_of_service_class_uuids
  by_cases h : uuid_size = 0
  · simp [h]
  · rw [if_neg h]
    have : (uuid_size - 1) / uuid_size = 0 := Nat.div_eq_of_lt (by omega)
    simp [strideIdxs, this]

/-- `filter_ad_structure` discards whenever every rule its set flags could
select has an empty configured UUID list. -/
theorem filter_ad_structure_empty (filt : Filter)
    (b1 b2 b3 b4 b5 b6 : Bool) (ad_len : Nat) (ad_data : Nat → Nat)
    (h16 : b1 = true ∨ b3 = true ∨ b4 = true → filt.uuids_16bit = [])
    (h32 : b2 = true ∨ b5 = true ∨ b6 = true → filt.uuids_32bit = []) :
    filter_ad_structure filt b1 b2 b3 b4 b5 b6 ad_len ad_data = Verdict.discard := by
  unfold filter_ad_structure
  split_ifs with hc1 hc2 hc3 hc4 hc5 hc6
  · have he := h16 (Or.inl (Bool.and_eq_true _ _ ▸ hc1).2)
    simp [filter_16bit_service, he, filter_service_data_uuid_nil]
  · have he := h32 (Or.inl (Bool.and_eq_true _ _ ▸ hc2).2)
    simp [filter_32bit_service, he, filter_service_data_uuid_nil]
  · have he := h16 (Or.inr (Or.inl (Bool.and_eq_true _ _ ▸ hc3).2))
    simp [filter_16bit_list, he, sl_filter_list_nil]
  · have he := h16 (Or.inr (Or.inr (Bool.and_eq_true _ _ ▸ hc4).2))
    simp [filter_16bit_list, he, sl_filter_list_nil]
  · have he := h32 (Or.inr (Or.inl (Bool.and_eq_true _ _ ▸ hc5).2))
    simp [filter_32bit_list, he, sl_filter_list_nil]
  · have he := h32 (Or.inr (Or.inr (Bool.and_eq_true _ _ ▸ hc6).2))
    simp [filter_32bit_list, he, sl_filter_list_nil]
  · rfl

/-- A scan step never accepts an AD structure whose type's width has an empty
configured UUID list. -/
theorem stepAccept_empty (filt : Filter) (data : Nat → Nat) (idx ad_len : Nat)
    (h16 : adType16 (data (idx + 1) % 256) → filt.uuids_16bit = [])
    (h32 : adType32 (data (idx + 1) % 256) → filt.uuids_32bit = []) :
    stepAccept filt data idx ad_len = false := by
  have hd := filter_ad_structure_empty filt
    (data (idx + 1) % 256 == SL_BT_HCI_AD_TYPE_SERVICE_DATA_UUID_16_BIT)
    (data (idx + 1) % 256 == SL_BT_HCI_AD_TYPE_SERVICE_DATA_UUID_32_BIT)
    (data (idx + 1) % 256 == SL_BT_HCI_AD_TYPE_INCOMPLETE_SERVICE_CLASS_UUID_16_BIT)
    (data (idx + 1) % 256 == SL_BT_HCI_AD_TYPE_COMPLETE_SERVICE_CLASS_UUID_16_BIT)
    (data (idx + 1) % 256 == SL_BT_HCI_AD_TYPE_INCOMPLETE_SERVICE_CLASS_UUID_32_BIT)
    (data (idx + 1) % 256 == SL_BT_HCI_AD_TYPE_COMPLETE_SERVICE_CLASS_UUID_32_BIT)
    ad_len (fun k => data (idx + 2 + k))
    (by
      intro h
      apply h16
      unfold adType16
      rcases h with h | h | h <;> simp only [beq_iff_eq] at h <;> tauto)
    (by
      intro h
      apply h32
      unfold adType32
      rcases h with h | h | h <;> simp only [beq_iff_eq] at h <;> tauto)
  unfold stepAccept
  simp only [hd]
  simp

/-- C10: with an empty configured UUID list for a width, both matchers return
no match for every AD payload: the service-data matcher and the
service-class-list matcher with `uuid_array_length = 0` are false for all
inputs; consequently a report that reaches the scanning step with a
well-formed blob, all of whose AD structures fall only under widths whose
configured lists are empty, is discarded, not accepted. -/
theorem empty_uuid_list_discards :
    (∀ (uuid_size : Nat) (ad_data : Nat → Nat) (uuid_array : List Nat),
      filter_service_data_uuid uuid_size ad_data 0 uuid_array = false)
    ∧ (∀ (uuid_size ad_len : Nat) (ad_data : Nat → Nat) (uuid_array : List Nat),
      sl_filter_list_of_service_class_uuids uuid_size ad_len ad_data 0 uuid_array = false)
    ∧ (∀ (filt : Filter) (inc : Bool) (ev : HciEvent) (structs : List (Nat × Nat)),
      filt.filter_config &&& UUID_RULES_MASK ≠ 0 →
      ReachesScan inc ev →
      parseStructs (dataRead ev) 0 (dataLengthOf ev) = some structs →
      (∀ s ∈ structs,
        (adType16 (dataRead ev (s.1 + 1) % 256) → filt.uuids_16bit = [])
        ∧ (adType32 (dataRead ev (s.1 + 1) % 256) → filt.uuids_32bit = [])) →
      filter_by_uuid filt inc ev = (some Verdict.discard, inc)) := by
  refine ⟨filter_service_data_uuid_nil, sl_filter_list_nil, ?_⟩
  intro filt inc ev structs hen hr hp hempty
  rw [filter_by_uuid_scan filt inc ev structs hen hr hp]
  have hany : (structs.any fun s => stepAccept filt (dataRead ev) s.1 s.2) = false := by
    rw [List.any_eq_false]
    intro s hs
    simp only [Bool.not_eq_true]
    exact stepAccept_empty filt (dataRead ev) s.1 s.2 (hempty s hs).1 (hempty s hs).2
  rw [hany]
  rfl

/-- C10 witness: complete-list-16 rule enabled with an empty 16-bit list; the
report whose single AD structure is a complete 16-bit UUID list is
discarded. -/
theorem empty_uuid_list_discards_witness :
    filter_by_uuid filtList16 false evList = (some Verdict.discard, false) := by
  exact empty_uuid_list_discards.2.2 filtList16 false evList [(0, 3)] (by decide)
    ⟨(by decide), (by decide)⟩ (by decide)
    (by
      intro s hs
      simp only [List.mem_singleton] at hs
      subst hs
      exact ⟨fun _ => rfl, fun _ => rfl⟩)

end AdvFilter

namespace AdvFilter

/-- C1 (amended): if at any scanning step the AD structure's declared length
strictly exceeds the remaining blob bytes, the step immediately returns
discard, and under the reach-scan hypotheses an event whose first AD length
byte overruns is discarded as a whole.  (The original claim's second half,
that no byte at an index at or beyond `data_length` is ever dereferenced, is
false: see the counterexample.) -/
theorem scan_overrun_discards :
    (∀ (filt : Filter) (data : Nat → Nat) (dl idx fuel : Nat),
      dl ≠ 0 → dl < data idx % 256 →
      scanLoop filt data (fuel + 1) dl idx = some Verdict.discard)
    ∧ (∀ (filt : Filter) (inc : Bool) (ev : HciEvent),
      filt.filter_config &&& UUID_RULES_MASK ≠ 0 →
      ReachesScan inc ev →
      dataLengthOf ev ≠ 0 → dataLengthOf ev < dataRead ev 0 % 256 →
      filter_by_uuid filt inc ev = (some Verdict.discard, inc)) := by
  constructor
  · intro filt data dl idx fuel h0 hgt
    rw [scanLoop]
    rw [if_neg h0]
    simp only
    rw [if_pos (by omega)]
  · intro filt inc ev hen hr h0 hgt
    rw [filter_by_uuid_reach filt inc ev hen hr]
    rw [show SCAN_FUEL = 65536 + 1 from rfl]
    rw [scanLoop]
    rw [if_neg h0]
    simp only
    rw [if_pos (by omega)]

/-- C1 counterexample: a blob of declared `data_length = 1` (here all-zero
bytes) makes the scan loop dereference the type byte at index 1, an index at
(and hence at or beyond) the declared `data_length`, before the bounds check
runs: index 1 is among the indices the loop reads. -/
theorem scan_reads_at_data_length :
    1 ∈ scanLoopReads initFilter zeroData SCAN_FUEL 1 0 ∧ ¬(1 < 1) := by
  constructor
  · decide
  · decide

/-- C1 witness: a report declaring `data_length = 2` whose first AD length
byte is 3 is discarded by the UUID stage (16-bit service-data rule
enabled). -/
theorem scan_overrun_discards_witness :
    filter_by_uuid filtFrag false evTrunc = (some Verdict.discard, false) :=
  scan_overrun_discards.2 filtFrag false evTrunc (by decide)
    ⟨(by decide), (by decide)⟩ (by decide) (by decide)

/-- The scan loop never yields a verdict, at any fuel, from the state
`data_len = 255`, `current_idx = 0` when `data[0] = 255` and `data[1]` is not
a filtered AD type: the step's uint8 updates `data_len -= 256` and
`current_idx += 256` reproduce the same state. -/
theorem scanLoop_cycle (filt : Filter) (data : Nat → Nat)
    (h0 : data 0 % 256 = 255) (h1 : data 1 % 256 = 0) :
    ∀ fuel, scanLoop filt data fuel 255 0 = none := by
  intro fuel
  induction fuel with
  | zero => rfl
  | succ f ih =>
    rw [scanLoop]
    rw [if_neg (by omega)]
    simp only [Nat.zero_add, h0]
    rw [if_neg (by omega)]
    rw [if_neg (by
      unfold stepAccept
      simp [h1, SL_BT_HCI_AD_TYPE_SERVICE_DATA_UUID_16_BIT,
        SL_BT_HCI_AD_TYPE_SERVICE_DATA_UUID_32_BIT,
        SL_BT_HCI_AD_TYPE_INCOMPLETE_SERVICE_CLASS_UUID_16_BIT,
        SL_BT_HCI_AD_TYPE_COMPLETE_SERVICE_CLASS_UUID_16_BIT,
        SL_BT_HCI_AD_TYPE_INCOMPLETE_SERVICE_CLASS_UUID_32_BIT,
        SL_BT_HCI_AD_TYPE_COMPLETE_SERVICE_CLASS_UUID_32_BIT])]
    simpa using ih

/-- C3: the claim that one invocation of the UUID stage always terminates is
violated by the code: on the report `ev255` (declared `data_length = 255`,
first AD length byte 255, AD type byte 0) the loop state `(255, 0)` steps to
itself because the uint8 arithmetic wraps (`ad_len = data_len = 255` passes
the `ad_len > data_len` check and `data_len - (ad_len + 1)` is `-1 mod 256 =
255`, `current_idx + 256 mod 256 = current_idx`), so the scan produces no
verdict at any fuel and the stage diverges. -/
theorem uuid_scan_nonterminating :
    (∀ (filt : Filter) (fuel : Nat),
      scanLoop filt (dataRead ev255) fuel 255 0 = none)
    ∧ filter_by_uuid filtFrag false ev255 = (none, false) := by
  have hcycle : ∀ (filt : Filter) (fuel : Nat),
      scanLoop filt (dataRead ev255) fuel 255 0 = none :=
    fun filt => scanLoop_cycle filt (dataRead ev255) (by decide) (by decide)
  refine ⟨hcycle, ?_⟩
  rw [filter_by_uuid_reach filtFrag false ev255 (by decide) ⟨(by decide), (by decide)⟩]
  rw [show dataLengthOf ev255 = 255 from by decide]
  rw [hcycle filtFrag SCAN_FUEL]

end AdvFilter

namespace AdvFilter

/-- C9 (amended): both stages are pure functions of the configuration, the
tracker flag and the report (the RSSI stage reads no mutable state at all),
so whenever the first UUID-stage invocation leaves the fragment tracker
unchanged, invoking the stage again on the same report and configuration
yields the same verdict and the same tracker state.  (When the first
invocation performs a designed tracker transition, the second invocation can
differ: see the counterexample.) -/
theorem stages_repeat_same_verdict (filt : Filter) (inc : Bool) (ev : HciEvent)
    (h : (filter_by_uuid filt inc ev).2 = inc) :
    filter_by_uuid filt (filter_by_uuid filt inc ev).2 ev = filter_by_uuid filt inc ev
    ∧ filter_by_rssi filt ev = filter_by_rssi filt ev := by
  rw [h]
  exact ⟨rfl, rfl⟩

/-- C9 counterexample: with a UUID rule enabled, the incomplete-flagged report
`evFrag` is accepted on the first invocation (tracker Idle to InChain), but
running both stages again on the very same report and configuration — now
with the tracker InChain — reaches the scan of its empty blob and discards:
the two verdicts differ. -/
theorem stages_second_invocation_differs :
    filter_by_uuid filtFrag false evFrag = (some Verdict.accept, true)
    ∧ filter_by_uuid filtFrag (filter_by_uuid filtFrag false evFrag).2 evFrag
      = (some Verdict.discard, true)
    ∧ (filter_by_uuid filtFrag false evFrag).1
      ≠ (filter_by_uuid filtFrag (filter_by_uuid filtFrag false evFrag).2 evFrag).1 := by
  refine ⟨by decide, by decide, by decide⟩

/-- C9 witness: a report that triggers no tracker transition (tracker Idle,
incomplete bit clear) gets the same verdict from a repeated invocation. -/
theorem stages_repeat_same_verdict_witness :
    filter_by_uuid filtFrag (filter_by_uuid filtFrag false evSvc).2 evSvc
      = filter_by_uuid filtFrag false evSvc :=
  (stages_repeat_same_verdict filtFrag false evSvc (by decide)).1

end AdvFilter

namespace AdvFilter

/-- C2 (amended): the validator treats byte 5 of the command buffer as the
byte length of the 16-bit UUID list, not as a UUID count: on every successful
configuration the stored 16-bit list is the `uuid16_len` bytes starting at
buffer offset 6, and the 32-bit byte length is read at buffer offset
`6 + uuid16_len` (not `6 + 2 * uuid16_count` as the spec's table says), the
32-bit list being the bytes starting at offset `7 + uuid16_len`. -/
theorem config_layout_bytes (cap16 cap32 : Nat) (work : List Nat) (current : Filter)
    (hok : (sl_btctrl_hci_event_configure_filtering cap16 cap32 (some work) current).1
      = SlStatus.ok) :
    (sl_btctrl_hci_event_configure_filtering cap16 cap32 (some work) current).2.uuids_16bit
      = (work.drop 6).take (listRead work 5 % 256)
    ∧ (sl_btctrl_hci_event_configure_filtering cap16 cap32 (some work) current).2.uuids_32bit
      = (work.drop (7 + listRead work 5 % 256)).take
          (listRead work (6 + listRead work 5 % 256) % 256) := by
  simp only [sl_btctrl_hci_event_configure_filtering] at hok ⊢
  split_ifs at hok ⊢ <;> try exact absurd hok (by decide)
  constructor
  · simp only [listRead_drop, List.drop_drop, Nat.add_zero]
  · simp only [listRead_drop, List.drop_drop, Nat.add_zero]
    rw [show 5 + (listRead work 5 % 256 + 1) = 6 + listRead work 5 % 256 from by omega]
    rw [show 5 + (listRead work 5 % 256 + 2) = 7 + listRead work 5 % 256 from by omega]

/-- C2 counterexample: on the buffer `cexWork` (byte 5 is 2) the validator
succeeds, stores a 16-bit list of 2 bytes — not the `2 * 2` bytes from offset
6 that the claimed layout describes — and the 32-bit length value it reads
(at offset 8, value 0) differs from the byte at the claimed offset
`6 + 2 * 2 = 10` (value 9). -/
theorem config_layout_cex :
    (sl_btctrl_hci_event_configure_filtering 4 4 (some cexWork) initFilter).1 = SlStatus.ok
    ∧ (sl_btctrl_hci_event_configure_filtering 4 4 (some cexWork) initFilter).2.uuids_16bit
      ≠ specUuid16Bytes cexWork
    ∧ listRead cexWork (6 + listRead cexWork 5 % 256) % 256 ≠ specUuid32Count cexWork := by
  refine ⟨by decide, by decide, by decide⟩

/-- C2 witness: the amended layout evaluated on the concrete successful buffer
`cexWork`: the stored 16-bit list is bytes 6..7 and the stored 32-bit list is
the 0 bytes at offset `7 + 2`. -/
theorem config_layout_bytes_witness :
    (sl_btctrl_hci_event_configure_filtering 4 4 (some cexWork) initFilter).2.uuids_16bit
      = (cexWork.drop 6).take (listRead cexWork 5 % 256)
    ∧ (sl_btctrl_hci_event_configure_filtering 4 4 (some cexWork) initFilter).2.uuids_32bit
      = (cexWork.drop (7 + listRead cexWork 5 % 256)).take
          (listRead cexWork (6 + listRead cexWork 5 % 256) % 256) :=
  config_layout_bytes 4 4 cexWork initFilter (by decide)

/-- C6 (amended): the validator fails with InvalidParameter whenever the
16-bit or 32-bit UUID byte length exceeds its configured capacity (leaving
the filter untouched); but no check relates the command buffer length to the
declared lengths — the dispatcher only enforces `5 ≤ length ≤ sizeof(work)`,
so a buffer too short for its declared counts can succeed (see the
counterexample). -/
theorem config_capacity_invalid (cap16 cap32 : Nat) (work : List Nat) (current : Filter)
    (hover : listRead work 5 % 256 > cap16
      ∨ listRead work (6 + listRead work 5 % 256) % 256 > cap32) :
    sl_btctrl_hci_event_configure_filtering cap16 cap32 (some work) current
      = (SlStatus.invalidParameter, current) := by
  simp only [sl_btctrl_hci_event_configure_filtering]
  simp only [listRead_drop, List.drop_drop, Nat.add_zero]
  rw [show 5 + (listRead work 5 % 256 + 1) = 6 + listRead work 5 % 256 from by omega]
  split_ifs with hc1 hc2 hc3 hc4
  · rfl
  · rfl
  · rfl
  · rfl
  · omega

/-- C6 counterexample: with capacities 2 and 4, a 6-byte command (4 bytes of
bitmask, the RSSI byte and the single byte `uuid16_len = 2`) is too short to
contain the 2 declared list bytes and the 32-bit count byte (9 bytes would be
needed), yet the command path answers the success status `BT_OK`, not an
error: no buffer-length-versus-counts check exists. -/
theorem config_short_buffer_cex :
    (hci_configure_filter_command 2 4 true SL_BT_HCI_CONFIGURE_FILTERING_OPCODE 6
      [0, 0, 0, 0, 0, 2] (List.replicate 13 0) initFilter).map (fun r => r.1)
      = some BT_OK := by
  decide

/-- C6 witness: a declared 16-bit byte length of 1 over capacity 0 is rejected
with InvalidParameter and the filter is unchanged. -/
theorem config_capacity_invalid_witness :
    sl_btctrl_hci_event_configure_filtering 0 0 (some [0, 0, 0, 0, 0, 1]) initFilter
      = (SlStatus.invalidParameter, initFilter) :=
  config_capacity_invalid 0 0 [0, 0, 0, 0, 0, 1] initFilter (by decide)

end AdvFilter
